import Mathlib

/-!
Verification of the Slack adapter manager (`csp_adapter_slack/adapter.py`).

We give a shallow embedding of the adapter's identifier caches, user and
channel resolution, inbound event deduplication and normalization, tag
extraction from block trees, and the outbound dispatcher loop, and prove
the spec's claims about them.

Python dictionaries are modelled as association lists where the most
recent insertion is first (`sset` prepends, `sfind` takes the first hit),
which matches `d[k] = v` / `d.get(k, None)` observationally.  The Slack
web client is modelled as an oracle environment (`SlackEnv`): each fetch
either returns parsed data (status code 200) or `none` (any other status
code).  Raised Python exceptions are modelled as explicit error values
carried alongside the mutated state, since Python mutation survives a
raise.
-/

namespace SlackAdapter

/-- Python `dict.get(k, None)`: first binding wins (newest insertion). -/
def sfind {α : Type} [DecidableEq α] : List (α × String) → α → Option String
  | [], _ => none
  | (k, v) :: rest, key => if key = k then some v else sfind rest key

/-- Python `d[k] = v`: newest insertion shadows older ones. -/
def sset {α : Type} (m : List (α × String)) (k : α) (v : String) : List (α × String) :=
  (k, v) :: m

@[simp] theorem sfind_sset_same {α : Type} [DecidableEq α] (m : List (α × String)) (k : α) (v : String) :
    sfind (sset m k v) k = some v := by
  simp [sfind, sset]

@[simp] theorem sfind_sset_other {α : Type} [DecidableEq α] (m : List (α × String)) (k k' : α) (v : String)
    (h : k' ≠ k) : sfind (sset m k v) k' = sfind m k' := by
  simp [sfind, sset, h]

/-- The lookup tables of `SlackAdapterManager.__init__`.  The
`channel_name_to_channel_id` table is keyed by `Option String` because
`_get_channel_from_id` can store a `None` key (when the IM counterpart's
name fails to resolve, Python happily uses `None` as a dict key). -/
structure Caches where
  channel_id_to_channel_name : List (String × String) := []
  channel_id_to_channel_type : List (String × String) := []
  channel_name_to_channel_id : List (Option String × String) := []
  user_id_to_user_name : List (String × String) := []
  user_id_to_user_email : List (String × String) := []
  user_name_to_user_id : List (String × String) := []
  user_email_to_user_id : List (String × String) := []
deriving DecidableEq

/-- Parsed payload of a successful `users_info` call:
`ret.data["user"]` with its `profile` dict. -/
structure UserInfoData where
  real_name_normalized : Option String := none
  name : String := ""
  email : Option String := none
deriving DecidableEq

/-- One record of `ret.data["members"]` from `users_list`.  `id` is the
top-level `"id"` key, `profile_id` the `"id"` key inside `profile`. -/
structure Member where
  id : Option String := none
  profile_id : Option String := none
  real_name_normalized : Option String := none
  name : String := ""
  email : Option String := none
deriving DecidableEq

/-- Channel metadata, as consumed by `_channel_data_to_channel_kind`,
`_get_channel_from_id` (`ret.data["channel"]`) and
`_get_channel_from_name` (entries of `ret.data["channels"]`). -/
structure ChannelData where
  id : String := ""
  name : String := ""
  user : String := ""
  is_im : Bool := false
  is_private : Bool := false
deriving DecidableEq

/-- Oracle for the Slack web client.  `none` models a non-200 status. -/
structure SlackEnv where
  users_info : String → Option UserInfoData
  users_list : Option (List Member)
  conversations_info : String → Option ChannelData
  conversations_list : Option (List ChannelData)

/-- `SlackAdapterManager._channel_data_to_channel_kind`:
the `is_im` flag wins over `is_private`; the direct/IM kind is the
string `"message"` in this code base (see `SlackMessage.channel_type`'s
docstring in `message.py`). -/
def channel_data_to_channel_kind (data : ChannelData) : String :=
  if data.is_im then "message"
  else if data.is_private then "private"
  else "public"

/-- `SlackAdapterManager._get_user_from_id`. -/
def get_user_from_id (env : SlackEnv) (st : Caches) (user_id : String) :
    (Option String × Option String) × Caches :=
  let name := sfind st.user_id_to_user_name user_id
  let email := sfind st.user_id_to_user_email user_id
  if name = none ∨ email = none then
    match env.users_info user_id with
    | some d =>
      let name := d.real_name_normalized.getD d.name
      let email := d.email.getD ""
      ((some name, some email),
        { st with
          user_id_to_user_name := sset st.user_id_to_user_name user_id name
          user_name_to_user_id := sset st.user_name_to_user_id name user_id
          user_id_to_user_email := sset st.user_id_to_user_email user_id email
          user_email_to_user_id := sset st.user_email_to_user_id email user_id })
    | none => ((name, email), st)
  else
    ((name, email), st)

/-- `SlackAdapterManager._get_channel_from_id`. -/
def get_channel_from_id (env : SlackEnv) (st : Caches) (channel_id : String) :
    (Option String × Option String) × Caches :=
  let name := sfind st.channel_id_to_channel_name channel_id
  let kind := sfind st.channel_id_to_channel_type channel_id
  if name = none then
    match env.conversations_info channel_id with
    | some d =>
      let kind := channel_data_to_channel_kind d
      let name := if kind = "message" then "IM" else d.name
      let st1 :=
        if name = "IM" then
          -- store by the name of the user
          let r := get_user_from_id env st d.user
          { r.2 with
            channel_name_to_channel_id := sset r.2.channel_name_to_channel_id r.1.1 channel_id }
        else
          { st with
            channel_name_to_channel_id := sset st.channel_name_to_channel_id (some name) channel_id }
      ((some name, some kind),
        { st1 with
          channel_id_to_channel_name := sset st1.channel_id_to_channel_name channel_id name
          channel_id_to_channel_type := sset st1.channel_id_to_channel_type channel_id kind })
    | none => ((name, kind), st)
  else
    ((name, kind), st)

/-- C1: a channel whose fetched metadata has the direct-message flag set is
classified `"message"` (the code's representation of the direct kind) no
matter what `is_private` says, its display name is `"IM"`, and the
counterpart user's resolved display name is stored as a name-to-ID mapping
for this channel ID. -/
theorem c1_direct_channel (env : SlackEnv) (st : Caches) (channel_id : String)
    (d : ChannelData) (uname : String)
    (hmiss : sfind st.channel_id_to_channel_name channel_id = none)
    (hfetch : env.conversations_info channel_id = some d)
    (him : d.is_im = true)
    (hresolve : (get_user_from_id env st d.user).1.1 = some uname) :
    (get_channel_from_id env st channel_id).1 = (some "IM", some "message") ∧
      sfind (get_channel_from_id env st channel_id).2.channel_name_to_channel_id
        (some uname) = some channel_id := by
  refine ⟨?_, ?_⟩ <;>
    simp [get_channel_from_id, hmiss, hfetch, channel_data_to_channel_kind, him, hresolve]

/-- Witness for `c1_direct_channel` at a concrete direct channel (with
`is_private` also set, exercising the precedence clause). -/
theorem c1_direct_channel_witness :
    (get_channel_from_id
        { users_info := fun _ => some { real_name_normalized := some "Jane Doe", name := "jane", email := some "j@x.co" }
          users_list := none
          conversations_info := fun _ => some { id := "D1", name := "", user := "U1", is_im := true, is_private := true }
          conversations_list := none }
        {} "D1").1 = (some "IM", some "message") ∧
      sfind (get_channel_from_id
        { users_info := fun _ => some { real_name_normalized := some "Jane Doe", name := "jane", email := some "j@x.co" }
          users_list := none
          conversations_info := fun _ => some { id := "D1", name := "", user := "U1", is_im := true, is_private := true }
          conversations_list := none }
        {} "D1").2.channel_name_to_channel_id (some "Jane Doe") = some "D1" :=
  c1_direct_channel _ _ "D1" _ "Jane Doe" rfl rfl rfl rfl

/-! ## User lookup by name (`_get_user_from_name`) -/

/-- Errors raised by the lookup helpers: `RuntimeError` is the
"No id found in user profile" raise (the spec's `MalformedRecord`),
`ValueError` the "not found in Slack" raise (the spec's `NotFound`). -/
inductive LookupError where
  | runtimeError (msg : String)
  | valueError (msg : String)
deriving DecidableEq

/-- The identifier chosen by `_get_user_from_name`'s
`if "id" in user: ... elif "id" in user["profile"]: ...` chain. -/
def member_id (u : Member) : Option String :=
  match u.id with
  | some uid => some uid
  | none => u.profile_id

/-- The four table insertions performed for one well-formed member record
inside `_get_user_from_name`'s refresh loop.  A member with no profile
email is indexed with its user ID as the email value. -/
def store_member (st : Caches) (u : Member) (uid : String) : Caches :=
  let name := u.real_name_normalized.getD u.name
  let email := u.email.getD uid
  { st with
    user_id_to_user_name := sset st.user_id_to_user_name uid name
    user_name_to_user_id := sset st.user_name_to_user_id name uid
    user_id_to_user_email := sset st.user_id_to_user_email uid email
    user_email_to_user_id := sset st.user_email_to_user_id email uid }

/-- The `for user in ret.data["members"]` loop of `_get_user_from_name`.
Returns the (partially) updated tables together with the raised error
message, if any: Python mutates the tables in place, so insertions made
before the raise survive it. -/
def process_members : List Member → Caches → Caches × Option String
  | [], st => (st, none)
  | u :: rest, st =>
    match member_id u with
    | none => (st, some "No id found in user profile")
    | some uid => process_members rest (store_member st u uid)

/-- `SlackAdapterManager._get_user_from_name`.  The error branch carries
the tables as mutated up to the raise. -/
def get_user_from_name (env : SlackEnv) (st : Caches) (user_name : String) :
    Except (LookupError × Caches) (String × Caches) :=
  match sfind st.user_name_to_user_id user_name with
  | some uid => .ok (uid, st)
  | none =>
    match env.users_list with
    | some members =>
      match process_members members st with
      | (st1, some e) => .error (.runtimeError e, st1)
      | (st1, none) =>
        match sfind st1.user_name_to_user_id user_name with
        | some uid => .ok (uid, st1)
        | none => .error (.valueError ("User " ++ user_name ++ " not found in Slack"), st1)
    | none =>
      match sfind st.user_name_to_user_id user_name with
      | some uid => .ok (uid, st)
      | none => .error (.valueError ("User " ++ user_name ++ " not found in Slack"), st)

theorem process_members_malformed (members : List Member) (st : Caches)
    (h : ∃ u ∈ members, member_id u = none) :
    (process_members members st).2 = some "No id found in user profile" := by
  induction members generalizing st with
  | nil => simp at h
  | cons u rest ih =>
    rcases h with ⟨v, hv, hvnone⟩
    rcases List.mem_cons.mp hv with rfl | hv'
    · simp [process_members, hvnone]
    · cases huid : member_id u with
      | none => simp [process_members, huid]
      | some uid => simpa [process_members, huid] using ih _ ⟨v, hv', hvnone⟩

theorem process_members_wellformed (members : List Member) (st : Caches)
    (h : ∀ u ∈ members, (member_id u).isSome) :
    (process_members members st).2 = none := by
  induction members generalizing st with
  | nil => simp [process_members]
  | cons u rest ih =>
    have hu := h u (List.mem_cons_self u rest)
    cases huid : member_id u with
    | none => rw [huid] at hu; simp at hu
    | some uid =>
      simpa [process_members, huid] using ih _ (fun v hv => h v (List.mem_cons_of_mem u hv))

/-- The refresh loop stops at the first malformed record, keeping the
tables built from the records before it. -/
theorem process_members_stops_at_bad (good : List Member) (bad : Member)
    (rest : List Member) (st : Caches)
    (hgood : ∀ u ∈ good, (member_id u).isSome)
    (hbad : member_id bad = none) :
    process_members (good ++ bad :: rest) st =
      ((process_members good st).1, some "No id found in user profile") := by
  induction good generalizing st with
  | nil => simp [process_members, hbad]
  | cons u g ih =>
    have hu := hgood u (List.mem_cons_self u g)
    cases huid : member_id u with
    | none => rw [huid] at hu; simp at hu
    | some uid =>
      simpa [process_members, huid] using
        ih (store_member st u uid) (fun v hv => hgood v (List.mem_cons_of_mem u hv))

/-- C5: on a cache miss, `_get_user_from_name` bulk-fetches all users,
repopulates the tables (`process_members`), then re-checks: a record with
neither a top-level nor a profile-embedded ID raises the
`MalformedRecord` error; otherwise the name is looked up in the refreshed
tables, raising `NotFound` when still absent and returning the refreshed
binding when present. -/
theorem c5_user_by_name_refresh (env : SlackEnv) (st : Caches) (user_name : String)
    (members : List Member)
    (hmiss : sfind st.user_name_to_user_id user_name = none)
    (hfetch : env.users_list = some members) :
    ((∃ u ∈ members, member_id u = none) →
      ∃ st1, get_user_from_name env st user_name =
        .error (.runtimeError "No id found in user profile", st1)) ∧
    ((∀ u ∈ members, (member_id u).isSome) →
      (sfind (process_members members st).1.user_name_to_user_id user_name = none →
        get_user_from_name env st user_name =
          .error (.valueError ("User " ++ user_name ++ " not found in Slack"),
            (process_members members st).1)) ∧
      (∀ uid, sfind (process_members members st).1.user_name_to_user_id user_name = some uid →
        get_user_from_name env st user_name = .ok (uid, (process_members members st).1))) := by
  constructor
  · intro h
    refine ⟨(process_members members st).1, ?_⟩
    have h2 := process_members_malformed members st h
    simp only [get_user_from_name, hmiss, hfetch]
    rw [show process_members members st = ((process_members members st).1, some "No id found in user profile") from by
      rw [← h2]]
  · intro h
    have h2 := process_members_wellformed members st h
    constructor
    · intro habs
      simp only [get_user_from_name, hmiss, hfetch]
      rw [show process_members members st = ((process_members members st).1, none) from by rw [← h2]]
      simp [habs]
    · intro uid hfound
      simp only [get_user_from_name, hmiss, hfetch]
      rw [show process_members members st = ((process_members members st).1, none) from by rw [← h2]]
      simp [hfound]

/-- Witness for `c5_user_by_name_refresh`: a concrete refresh where the
sought name is found after repopulation, and the malformed-record clause
is vacuous. -/
theorem c5_user_by_name_refresh_witness :
    ((∃ u ∈ [({ id := some "U7", name := "ann" } : Member)], member_id u = none) →
      ∃ st1, get_user_from_name
        { users_info := fun _ => none, users_list := some [{ id := some "U7", name := "ann" }],
          conversations_info := fun _ => none, conversations_list := none }
        {} "ann" = .error (.runtimeError "No id found in user profile", st1)) ∧
    ((∀ u ∈ [({ id := some "U7", name := "ann" } : Member)], (member_id u).isSome) →
      (sfind (process_members [{ id := some "U7", name := "ann" }] {}).1.user_name_to_user_id "ann" = none →
        get_user_from_name
          { users_info := fun _ => none, users_list := some [{ id := some "U7", name := "ann" }],
            conversations_info := fun _ => none, conversations_list := none }
          {} "ann" =
          .error (.valueError ("User " ++ "ann" ++ " not found in Slack"),
            (process_members [{ id := some "U7", name := "ann" }] {}).1)) ∧
      (∀ uid, sfind (process_members [{ id := some "U7", name := "ann" }] {}).1.user_name_to_user_id "ann" = some uid →
        get_user_from_name
          { users_info := fun _ => none, users_list := some [{ id := some "U7", name := "ann" }],
            conversations_info := fun _ => none, conversations_list := none }
          {} "ann" = .ok (uid, (process_members [{ id := some "U7", name := "ann" }] {}).1))) :=
  c5_user_by_name_refresh _ {} "ann" [{ id := some "U7", name := "ann" }] rfl rfl

/-- C10: the bulk user refresh is not atomic on error.  With a malformed
record after `good`, the `MalformedRecord` error is raised with the
tables already holding everything stored for the earlier records
(`process_members good st`); and a well-formed member without an email is
indexed with its user ID as the stored email value. -/
theorem c10_refresh_not_atomic (env : SlackEnv) (st : Caches) (user_name : String)
    (good : List Member) (bad : Member) (rest : List Member)
    (hmiss : sfind st.user_name_to_user_id user_name = none)
    (hfetch : env.users_list = some (good ++ bad :: rest))
    (hgood : ∀ u ∈ good, (member_id u).isSome)
    (hbad : member_id bad = none) :
    get_user_from_name env st user_name =
      .error (.runtimeError "No id found in user profile", (process_members good st).1) ∧
    (∀ (u : Member) (uid : String) (st0 : Caches), u.email = none → member_id u = some uid →
      sfind (store_member st0 u uid).user_id_to_user_email uid = some uid) := by
  constructor
  · simp only [get_user_from_name, hmiss, hfetch]
    rw [process_members_stops_at_bad good bad rest st hgood hbad]
  · intro u uid st0 hmail _
    simp [store_member, hmail]

/-- Witness for `c10_refresh_not_atomic`: one good email-less record
followed by a record with no usable ID; the good record's email binding
(its own ID) survives the raise. -/
theorem c10_refresh_not_atomic_witness :
    get_user_from_name
        { users_info := fun _ => none,
          users_list := some [{ id := some "U1", name := "bob" }, { name := "ghost" }],
          conversations_info := fun _ => none, conversations_list := none }
        {} "ann" =
      .error (.runtimeError "No id found in user profile",
        (process_members [{ id := some "U1", name := "bob" }] {}).1) ∧
    (∀ (u : Member) (uid : String) (st0 : Caches), u.email = none → member_id u = some uid →
      sfind (store_member st0 u uid).user_id_to_user_email uid = some uid) :=
  c10_refresh_not_atomic _ {} "ann" [{ id := some "U1", name := "bob" }] { name := "ghost" } []
    rfl rfl (by simp [member_id]) rfl

/-! ## Deduplication (`_process_slack_message`, lines 241-247) -/

/-- The dedup step of `_process_slack_message`: a seen ID is removed from
the set and the event suppressed (`False`); an unseen ID is added and the
event processed (`True`).  `self._seen_msg_ids` is a Python set, modelled
as a duplicate-free list. -/
def shouldProcess (seen : List String) (ts : String) : Bool × List String :=
  if ts ∈ seen then (false, seen.erase ts)
  else (true, ts :: seen)

/-- C3: for an ID not currently marked seen, successive deliveries
alternate processing and suppression: `true, false, true, false`, the
second sighting clearing the mark so the third counts as first-seen. -/
theorem c3_dedup_toggle (seen : List String) (ts : String) (h : ts ∉ seen) :
    (shouldProcess seen ts).1 = true ∧
    (shouldProcess (shouldProcess seen ts).2 ts).1 = false ∧
    (shouldProcess (shouldProcess (shouldProcess seen ts).2 ts).2 ts).1 = true ∧
    (shouldProcess (shouldProcess (shouldProcess (shouldProcess seen ts).2 ts).2 ts).2 ts).1
      = false := by
  have h1 : shouldProcess seen ts = (true, ts :: seen) := by simp [shouldProcess, h]
  have h2 : shouldProcess (ts :: seen) ts = (false, seen) := by
    simp [shouldProcess, List.erase_cons_head]
  rw [h1, h2, h1, h2]
  simp [shouldProcess, h]

/-- Witness for `c3_dedup_toggle` on a fresh ID against a non-empty seen
set. -/
theorem c3_dedup_toggle_witness :
    (shouldProcess ["9.9"] "1.23").1 = true ∧
    (shouldProcess (shouldProcess ["9.9"] "1.23").2 "1.23").1 = false ∧
    (shouldProcess (shouldProcess (shouldProcess ["9.9"] "1.23").2 "1.23").2 "1.23").1 = true ∧
    (shouldProcess (shouldProcess (shouldProcess (shouldProcess ["9.9"] "1.23").2 "1.23").2 "1.23").2 "1.23").1
      = false :=
  c3_dedup_toggle ["9.9"] "1.23" (by decide)

/-! ## Tag extraction (`_get_tags_from_message`) -/

/-- One node of the rich-content block tree: its `"type"`, `"user_id"`
and nested `"elements"` (missing dict keys modelled as `""` / `[]`). -/
inductive SlackBlock where
  | mk (type : String) (user_id : String) (elements : List SlackBlock)

def SlackBlock.type : SlackBlock → String
  | .mk t _ _ => t

def SlackBlock.user_id : SlackBlock → String
  | .mk _ u _ => u

def SlackBlock.elements : SlackBlock → List SlackBlock
  | .mk _ _ es => es

mutual
/-- Node count of a block tree, the termination measure of the walk. -/
def SlackBlock.size : SlackBlock → Nat
  | .mk _ _ es => 1 + sizeBlocks es

def sizeBlocks : List SlackBlock → Nat
  | [] => 0
  | b :: bs => SlackBlock.size b + sizeBlocks bs
end

theorem sizeBlocks_append (a b : List SlackBlock) :
    sizeBlocks (a ++ b) = sizeBlocks a + sizeBlocks b := by
  induction a with
  | nil => simp [sizeBlocks]
  | cons x xs ih => simp [sizeBlocks, ih]; omega

theorem sizeBlocks_reverse (a : List SlackBlock) :
    sizeBlocks a.reverse = sizeBlocks a := by
  induction a with
  | nil => rfl
  | cons x xs ih =>
    simp [List.reverse_cons, sizeBlocks_append, sizeBlocks, ih]
    omega

theorem sizeBlocks_to_search (e : SlackBlock) (rest : List SlackBlock) :
    sizeBlocks (if e.elements.isEmpty then rest else e.elements.reverse ++ rest) <
      sizeBlocks (e :: rest) := by
  rcases e with ⟨t, u, es⟩
  cases es with
  | nil => simp [SlackBlock.elements, sizeBlocks, SlackBlock.size]
  | cons c cs =>
    simp [SlackBlock.elements, sizeBlocks_append, sizeBlocks_reverse, sizeBlocks,
      SlackBlock.size]
    omega

/-- The `while to_search:` loop of `_get_tags_from_message`.  The Python
list's tail (where `pop()` and `extend` operate) is the head of the Lean
list, so pushing children `[c1, …, ck]` prepends `ck, …, c1`. -/
def get_tags_loop (env : SlackEnv) :
    List SlackBlock → List String → Caches → List String × Caches
  | [], tags, st => (tags, st)
  | e :: rest, tags, st =>
    let to_search := if e.elements.isEmpty then rest else e.elements.reverse ++ rest
    if e.type = "user" then
      let r := get_user_from_id env st e.user_id
      let tags' :=
        match r.1.1 with
        | some n => if n = "" then tags else tags ++ [n]
        | none => tags
      get_tags_loop env to_search tags' r.2
    else
      get_tags_loop env to_search tags st
termination_by stack _ _ => sizeBlocks stack
decreasing_by
  all_goals exact sizeBlocks_to_search e rest

/-- `SlackAdapterManager._get_tags_from_message` (`blocks.copy()` with
`pop()` from the Python tail reverses the initial stack). -/
def get_tags_from_message (env : SlackEnv) (st : Caches) (blocks : List SlackBlock) :
    List String × Caches :=
  get_tags_loop env blocks.reverse [] st

mutual
/-- Specification-side collector: the `"user_id"`s of all `"user"`-typed
nodes of one block, in tree order. -/
def collect_ids : SlackBlock → List String
  | .mk t u es => (if t = "user" then [u] else []) ++ collect_ids_list es

def collect_ids_list : List SlackBlock → List String
  | [] => []
  | b :: bs => collect_ids b ++ collect_ids_list bs
end

theorem collect_ids_list_append (a b : List SlackBlock) :
    collect_ids_list (a ++ b) = collect_ids_list a ++ collect_ids_list b := by
  induction a with
  | nil => simp [collect_ids_list]
  | cons x xs ih => simp [collect_ids_list, ih]

theorem collect_ids_list_reverse_perm (a : List SlackBlock) :
    (collect_ids_list a.reverse).Perm (collect_ids_list a) := by
  induction a with
  | nil => exact List.Perm.refl _
  | cons x xs ih =>
    rw [List.reverse_cons, collect_ids_list_append,
      show collect_ids_list [x] = collect_ids x from by simp [collect_ids_list],
      show collect_ids_list (x :: xs) = collect_ids x ++ collect_ids_list xs from by
        rw [collect_ids_list]]
    exact (ih.append_right _).trans List.perm_append_comm

/-- The display name an already-cached user resolves to. -/
def cached_name (st : Caches) (uid : String) : String :=
  (sfind st.user_id_to_user_name uid).getD ""

/-- A user whose name and email are both cached with a non-empty name. -/
def cached_nonempty (st : Caches) (uid : String) : Prop :=
  ∃ n em, sfind st.user_id_to_user_name uid = some n ∧ n ≠ "" ∧
    sfind st.user_id_to_user_email uid = some em

theorem get_user_from_id_cached (env : SlackEnv) (st : Caches) (uid n em : String)
    (hn : sfind st.user_id_to_user_name uid = some n)
    (he : sfind st.user_id_to_user_email uid = some em) :
    get_user_from_id env st uid = ((some n, some em), st) := by
  simp [get_user_from_id, hn, he]

theorem sizeBlocks_rev_append_lt (t u : String) (es rest : List SlackBlock) :
    sizeBlocks (es.reverse ++ rest) < sizeBlocks (SlackBlock.mk t u es :: rest) := by
  rw [sizeBlocks_append, sizeBlocks_reverse]
  simp [sizeBlocks, SlackBlock.size]

/-- One step of the walk at a `"user"` node whose ID is cached with
non-empty name `n`: the children are pushed and `n` is appended. -/
theorem get_tags_loop_cons_user (env : SlackEnv) (st : Caches) (u : String)
    (es rest : List SlackBlock) (tags : List String) (n em : String)
    (hn : sfind st.user_id_to_user_name u = some n) (hne : n ≠ "")
    (he : sfind st.user_id_to_user_email u = some em) :
    get_tags_loop env (SlackBlock.mk "user" u es :: rest) tags st =
      get_tags_loop env (es.reverse ++ rest) (tags ++ [n]) st := by
  rw [get_tags_loop]
  have hts : (if (SlackBlock.mk "user" u es).elements.isEmpty then rest
      else (SlackBlock.mk "user" u es).elements.reverse ++ rest) = es.reverse ++ rest := by
    cases es <;> simp [SlackBlock.elements]
  simp only [hts, SlackBlock.type, SlackBlock.user_id,
    get_user_from_id_cached env st u n em hn he, if_neg hne]
  simp

/-- One step of the walk at a non-`"user"` node: the children are pushed
and no tag is appended. -/
theorem get_tags_loop_cons_other (env : SlackEnv) (st : Caches) (t u : String)
    (es rest : List SlackBlock) (tags : List String) (ht : t ≠ "user") :
    get_tags_loop env (SlackBlock.mk t u es :: rest) tags st =
      get_tags_loop env (es.reverse ++ rest) tags st := by
  rw [get_tags_loop]
  have hts : (if (SlackBlock.mk t u es).elements.isEmpty then rest
      else (SlackBlock.mk t u es).elements.reverse ++ rest) = es.reverse ++ rest := by
    cases es <;> simp [SlackBlock.elements]
  simp only [hts, SlackBlock.type, if_neg ht]

/-- The walk of `_get_tags_from_message`, when every mentioned user is
cached with a non-empty name, appends exactly one cached name per
`"user"` node (up to order) and leaves the caches untouched. -/
theorem get_tags_loop_cached (env : SlackEnv) (st : Caches)
    (stack : List SlackBlock) (tags : List String)
    (H : ∀ uid ∈ collect_ids_list stack, cached_nonempty st uid) :
    (get_tags_loop env stack tags st).1.Perm
      (tags ++ (collect_ids_list stack).map (cached_name st)) ∧
    (get_tags_loop env stack tags st).2 = st := by
  match stack with
  | [] => simp [get_tags_loop, collect_ids_list]
  | (SlackBlock.mk t u es) :: rest =>
    have hmem : ∀ uid ∈ collect_ids_list (es.reverse ++ rest),
        cached_nonempty st uid := by
      intro uid hm
      rw [collect_ids_list_append] at hm
      refine H uid ?_
      rw [show collect_ids_list (SlackBlock.mk t u es :: rest) =
        collect_ids (SlackBlock.mk t u es) ++ collect_ids_list rest from by
          rw [collect_ids_list]]
      rcases List.mem_append.mp hm with h1 | h2
      · have h1' := (collect_ids_list_reverse_perm es).mem_iff.mp h1
        simp [collect_ids]
        tauto
      · simp [collect_ids]
        tauto
    have hCL : collect_ids_list (SlackBlock.mk t u es :: rest) =
        (if t = "user" then [u] else []) ++ (collect_ids_list es ++ collect_ids_list rest) := by
      rw [show collect_ids_list (SlackBlock.mk t u es :: rest) =
        collect_ids (SlackBlock.mk t u es) ++ collect_ids_list rest from by
          rw [collect_ids_list]]
      rw [collect_ids]
      simp [List.append_assoc]
    have hpermA : ((collect_ids_list es.reverse).map (cached_name st) ++
          (collect_ids_list rest).map (cached_name st)).Perm
        ((collect_ids_list es).map (cached_name st) ++
          (collect_ids_list rest).map (cached_name st)) :=
      ((collect_ids_list_reverse_perm es).map _).append_right _
    by_cases ht : t = "user"
    · subst ht
      have hu : cached_nonempty st u := by
        refine H u ?_
        rw [hCL]
        simp
      rcases hu with ⟨n, em, hn, hne, he⟩
      have ih := get_tags_loop_cached env st (es.reverse ++ rest) (tags ++ [n]) hmem
      rw [get_tags_loop_cons_user env st u es rest tags n em hn hne he]
      refine ⟨?_, ih.2⟩
      refine ih.1.trans ?_
      rw [collect_ids_list_append, hCL]
      simp only [if_pos rfl, if_true, List.map_append, List.append_assoc,
        List.singleton_append, List.map_cons, List.map_nil]
      have hcn : cached_name st u = n := by simp [cached_name, hn]
      rw [hcn]
      exact List.Perm.append_left tags (List.Perm.cons n hpermA)
    · have ih := get_tags_loop_cached env st (es.reverse ++ rest) tags hmem
      rw [get_tags_loop_cons_other env st t u es rest tags ht]
      refine ⟨?_, ih.2⟩
      refine ih.1.trans ?_
      rw [collect_ids_list_append, hCL]
      simp only [if_neg ht, List.map_append, List.nil_append]
      exact List.Perm.append_left tags hpermA
termination_by sizeBlocks stack
decreasing_by all_goals exact sizeBlocks_rev_append_lt t u es rest

/-- C7: over any nested block tree all of whose mentioned users are
cached with non-empty display names (so each mention resolves to a
non-empty name), tag extraction returns exactly one resolved display
name per `"user"` mention node, at any nesting depth, in some order. -/
theorem c7_one_tag_per_mention (env : SlackEnv) (st : Caches) (blocks : List SlackBlock)
    (H : ∀ uid ∈ collect_ids_list blocks, cached_nonempty st uid) :
    (get_tags_from_message env st blocks).1.Perm
      ((collect_ids_list blocks).map (cached_name st)) := by
  have Hrev : ∀ uid ∈ collect_ids_list blocks.reverse, cached_nonempty st uid := by
    intro uid hm
    exact H uid ((collect_ids_list_reverse_perm blocks).mem_iff.mp hm)
  have h := (get_tags_loop_cached env st blocks.reverse [] Hrev).1
  rw [get_tags_from_message]
  refine h.trans ?_
  simp only [List.nil_append]
  exact (collect_ids_list_reverse_perm blocks).map _

/-- Witness for `c7_one_tag_per_mention`: three `"user"` leaves across
two nested groups yield three tags (a permutation of the three resolved
names). -/
theorem c7_one_tag_per_mention_witness :
    (get_tags_from_message
        { users_info := fun _ => none, users_list := none,
          conversations_info := fun _ => none, conversations_list := none }
        { user_id_to_user_name := [("U1", "Alice"), ("U2", "Bob"), ("U3", "Carol")],
          user_id_to_user_email := [("U1", "a@x"), ("U2", "b@x"), ("U3", "c@x")] }
        [.mk "rich_text" "" [.mk "rich_text_section" "" [.mk "user" "U1" [], .mk "text" "" []],
          .mk "rich_text_section" "" [.mk "user" "U2" [], .mk "user" "U3" []]]]).1.Perm
      ((collect_ids_list
          [.mk "rich_text" "" [.mk "rich_text_section" "" [.mk "user" "U1" [], .mk "text" "" []],
            .mk "rich_text_section" "" [.mk "user" "U2" [], .mk "user" "U3" []]]]).map
        (cached_name
          { user_id_to_user_name := [("U1", "Alice"), ("U2", "Bob"), ("U3", "Carol")],
            user_id_to_user_email := [("U1", "a@x"), ("U2", "b@x"), ("U3", "c@x")] })) := by
  refine c7_one_tag_per_mention _ _ _ ?_
  intro uid hm
  simp [collect_ids_list, collect_ids] at hm
  rcases hm with rfl | rfl | rfl
  · exact ⟨"Alice", "a@x", by simp [sfind], by simp [sfind], by simp [sfind]⟩
  · exact ⟨"Bob", "b@x", by simp [sfind], by simp [sfind], by simp [sfind]⟩
  · exact ⟨"Carol", "c@x", by simp [sfind], by simp [sfind], by simp [sfind]⟩

/-! ## Inbound normalization (`_process_slack_message`) -/

/-- `req.payload["event"]`. -/
structure SlackEvent where
  type : String := ""
  subtype : Option String := none
  ts : String := ""
  user : String := ""
  channel : String := ""
  text : String := ""
  blocks : List SlackBlock := []

/-- `req.payload`. -/
structure EventPayload where
  event : SlackEvent

/-- The socket-mode request handed to `_process_slack_message`. -/
structure SocketRequest where
  type : String
  envelope_id : String := ""
  payload : EventPayload

/-- The canonical message (`SlackMessage` in `message.py`).  Unset csp
struct fields are modelled as `""` / `[]` / `none`, matching the falsy
checks the adapter performs on them. -/
structure SlackMessage where
  user : String := ""
  user_email : String := ""
  user_id : String := ""
  tags : List String := []
  channel : String := ""
  channel_id : String := ""
  channel_type : String := ""
  msg : String := ""
  reaction : String := ""
  thread : String := ""
  payload : Option EventPayload := none

/-- The manager state touched by `_process_slack_message`. -/
structure InboundState where
  caches : Caches := {}
  seen_msg_ids : List String := []
  inqueue : List SlackMessage := []

/-- `SlackAdapterManager._process_slack_message`.  Returns the new state
and the list of messages this call appended to the inbound queue. -/
def process_slack_message (env : SlackEnv) (st : InboundState) (req : SocketRequest) :
    InboundState × List SlackMessage :=
  if req.type = "events_api" then
    let ev := req.payload.event
    let r := shouldProcess st.seen_msg_ids ev.ts
    if r.1 = false then
      ({ st with seen_msg_ids := r.2 }, [])
    else
      let st1 := { st with seen_msg_ids := r.2 }
      if (ev.type = "message" ∨ ev.type = "app_mention") ∧ ev.subtype = none then
        let ru := get_user_from_id env st1.caches ev.user
        let rc := get_channel_from_id env ru.2 ev.channel
        let rt := get_tags_from_message env rc.2 ev.blocks
        let m : SlackMessage :=
          { user := ru.1.1.getD "", user_email := ru.1.2.getD "",
            user_id := ev.user, tags := rt.1,
            channel := rc.1.1.getD "", channel_id := ev.channel,
            channel_type := rc.1.2.getD "",
            msg := ev.text, reaction := "", thread := ev.ts,
            payload := some req.payload }
        ({ st1 with caches := rt.2, inqueue := st1.inqueue ++ [m] }, [m])
      else
        (st1, [])
  else
    (st, [])

/-- C4: an events_api event carrying a subtype enqueues no canonical
message; and, unconditionally, a canonical message is only ever produced
by a `"message"` or `"app_mention"` event with no subtype. -/
theorem c4_subtype_dropped (env : SlackEnv) (st : InboundState) (req : SocketRequest)
    (s : String) (hsub : req.payload.event.subtype = some s) :
    ((process_slack_message env st req).2 = [] ∧
      (process_slack_message env st req).1.inqueue = st.inqueue) ∧
    (∀ (env' : SlackEnv) (st' : InboundState) (req' : SocketRequest),
      (process_slack_message env' st' req').2 ≠ [] →
      (req'.payload.event.type = "message" ∨ req'.payload.event.type = "app_mention") ∧
        req'.payload.event.subtype = none) := by
  constructor
  · by_cases ht : req.type = "events_api"
    · by_cases hseen : (shouldProcess st.seen_msg_ids req.payload.event.ts).1 = false
      · simp [process_slack_message, ht, hseen]
      · simp [process_slack_message, ht, hseen, hsub]
    · simp [process_slack_message, ht]
  · intro env' st' req' hne
    by_cases ht : req'.type = "events_api"
    · by_cases hseen : (shouldProcess st'.seen_msg_ids req'.payload.event.ts).1 = false
      · simp [process_slack_message, ht, hseen] at hne
      · by_cases hq : (req'.payload.event.type = "message" ∨
            req'.payload.event.type = "app_mention") ∧ req'.payload.event.subtype = none
        · exact hq
        · simp [process_slack_message, ht, hseen, hq] at hne
    · simp [process_slack_message, ht] at hne

/-- Witness for `c4_subtype_dropped`: a channel-join notice
(`subtype="channel_join"`) is dropped. -/
theorem c4_subtype_dropped_witness :
    ((process_slack_message
        { users_info := fun _ => none, users_list := none,
          conversations_info := fun _ => none, conversations_list := none }
        {} { type := "events_api",
             payload := { event := { type := "message", subtype := some "channel_join",
                                     ts := "5.5" } } }).2 = [] ∧
      (process_slack_message
        { users_info := fun _ => none, users_list := none,
          conversations_info := fun _ => none, conversations_list := none }
        {} { type := "events_api",
             payload := { event := { type := "message", subtype := some "channel_join",
                                     ts := "5.5" } } }).1.inqueue = InboundState.inqueue {}) ∧
    (∀ (env' : SlackEnv) (st' : InboundState) (req' : SocketRequest),
      (process_slack_message env' st' req').2 ≠ [] →
      (req'.payload.event.type = "message" ∨ req'.payload.event.type = "app_mention") ∧
        req'.payload.event.subtype = none) :=
  c4_subtype_dropped _ {} _ "channel_join" rfl

/-! ## Channel lookup by name (`_get_channel_from_name`) -/

/-- The `for channel in ret.data["channels"]` loop of
`_get_channel_from_name`. -/
def process_channels : List ChannelData → Caches → Caches
  | [], st => st
  | c :: rest, st =>
    process_channels rest
      { st with
        channel_id_to_channel_name := sset st.channel_id_to_channel_name c.id c.name
        channel_name_to_channel_id := sset st.channel_name_to_channel_id (some c.name) c.id
        channel_id_to_channel_type :=
          sset st.channel_id_to_channel_type c.id (channel_data_to_channel_kind c) }

/-- `SlackAdapterManager._get_channel_from_name`: a `<#…|>` tagged name
short-circuits to the embedded ID; otherwise cache, then bulk refresh,
then re-check, raising `ValueError` when still absent. -/
def get_channel_from_name (env : SlackEnv) (st : Caches) (channel_name : String) :
    Except (LookupError × Caches) (String × Caches) :=
  let channel_id :=
    if channel_name.startsWith "<#" ∧ channel_name.endsWith "|>" then
      some ((channel_name.drop 2).dropRight 2)
    else
      sfind st.channel_name_to_channel_id (some channel_name)
  match channel_id with
  | some cid => .ok (cid, st)
  | none =>
    let st1 :=
      match env.conversations_list with
      | some channels => process_channels channels st
      | none => st
    match sfind st1.channel_name_to_channel_id (some channel_name) with
    | some cid => .ok (cid, st1)
    | none => .error (.valueError ("Channel " ++ channel_name ++ " not found in Slack"), st1)

/-! ## Outbound dispatcher (the drain loop of `_run`) -/

/-- A call issued to the Slack web client by the drain loop. -/
inductive WebCall where
  | reactions_add (channel name timestamp : String)
  | chat_postMessage (channel text : String)
deriving DecidableEq

/-- An exception escaping the drain loop (and hence killing `_run`). -/
inductive RunError where
  | slackApiError
  | nameError
  | lookupError (e : LookupError)
deriving DecidableEq

/-- A log record emitted by the drain loop. -/
inductive LogEvent where
  | sendFailure
  | malformedMessage
deriving DecidableEq

/-- Failure oracle for the web client's command surface: whether a given
call raises `SlackApiError`. -/
structure WebFailures where
  reactions_add_fails : String → String → String → Bool
  chat_postMessage_fails : String → String → Bool

/-- Result of processing outbound records: calls issued, log records,
table state, the `channel_id` local variable of `_run` (unbound = `none`),
and the exception escaping the loop, if any. -/
structure StepOut where
  calls : List WebCall := []
  logs : List LogEvent := []
  caches : Caches := {}
  channel_id : Option String := none
  error : Option RunError := none

/-- The "grab channel or DM" block of `_run` (lines 280-284): an explicit
non-empty `channel_id` field wins; else a non-empty `channel` name is
resolved (which may raise); else the `channel_id` local keeps whatever an
earlier record left in it. -/
def resolve_destination (env : SlackEnv) (st : Caches) (chvar : Option String)
    (m : SlackMessage) : Except (LookupError × Caches) (Caches × Option String) :=
  if m.channel_id ≠ "" then
    .ok (st, some m.channel_id)
  else if m.channel ≠ "" then
    match get_channel_from_name env st m.channel with
    | .ok (cid, st') => .ok (st', some cid)
    | .error e => .error e
  else
    .ok (st, chvar)

/-- Processing of one dequeued record in the drain loop of `_run`
(lines 276-306).  Only `chat_postMessage` is guarded by
`try/except SlackApiError`; a failing `reactions_add`, a lookup error,
or a read of the unbound `channel_id` local escapes. -/
def process_out_msg (env : SlackEnv) (wf : WebFailures) (st : Caches)
    (chvar : Option String) (m : SlackMessage) : StepOut :=
  match resolve_destination env st chvar m with
  | .error (e, st') => { caches := st', channel_id := chvar, error := some (.lookupError e) }
  | .ok (st', chvar') =>
    if m.reaction ≠ "" ∧ m.thread ≠ "" then
      match chvar' with
      | none => { caches := st', channel_id := none, error := some .nameError }
      | some cid =>
        { calls := [.reactions_add cid m.reaction m.thread], caches := st',
          channel_id := some cid,
          error := if wf.reactions_add_fails cid m.reaction m.thread then
            some .slackApiError else none }
    else if m.msg ≠ "" then
      match chvar' with
      | none => { caches := st', channel_id := none, error := some .nameError }
      | some cid =>
        { calls := [.chat_postMessage cid m.msg],
          logs := if wf.chat_postMessage_fails cid m.msg then [.sendFailure] else [],
          caches := st', channel_id := some cid }
    else
      { logs := [.malformedMessage], caches := st', channel_id := chvar' }

/-- The `while not self._outqueue.empty():` drain of `_run`, over a
snapshot of the queue.  An escaping exception stops the drain (and kills
the worker); records after it are never processed. -/
def drain_outqueue (env : SlackEnv) (wf : WebFailures) :
    List SlackMessage → Caches → Option String → StepOut
  | [], st, chvar => { caches := st, channel_id := chvar }
  | m :: rest, st, chvar =>
    let r := process_out_msg env wf st chvar m
    match r.error with
    | some e =>
      { calls := r.calls, logs := r.logs, caches := r.caches,
        channel_id := r.channel_id, error := some e }
    | none =>
      let r2 := drain_outqueue env wf rest r.caches r.channel_id
      { calls := r.calls ++ r2.calls, logs := r.logs ++ r2.logs, caches := r2.caches,
        channel_id := r2.channel_id, error := r2.error }

/-- An observable step of one `_run` iteration: a web-client call or a
`push_tick` of one batch to one subscriber. -/
inductive Action where
  | call (c : WebCall)
  | push_tick (subscriber : Nat) (batch : List SlackMessage)

def Action.isCall : Action → Bool
  | .call _ => true
  | .push_tick _ _ => false

/-- One iteration of the `while self._running:` loop of `_run`
(lines 272-317): drain the whole outbound queue, then, if the inbound
queue is non-empty, deliver all of it as one batch to every registered
subscriber.  Subscribers are identified by their index. -/
def run_iteration (env : SlackEnv) (wf : WebFailures) (outq : List SlackMessage)
    (inq : List SlackMessage) (subscribers : List Nat) (st : Caches)
    (chvar : Option String) : List Action × StepOut :=
  let r := drain_outqueue env wf outq st chvar
  match r.error with
  | some _ => (r.calls.map .call, r)
  | none =>
    if inq.isEmpty then (r.calls.map .call, r)
    else (r.calls.map .call ++ subscribers.map (fun s => Action.push_tick s inq), r)

/-- A web client whose every fetch reports a non-200 status. -/
def emptyEnv : SlackEnv :=
  { users_info := fun _ => none, users_list := none,
    conversations_info := fun _ => none, conversations_list := none }

/-- A command surface on which no call raises. -/
def noFailures : WebFailures :=
  { reactions_add_fails := fun _ _ _ => false, chat_postMessage_fails := fun _ _ => false }

/-- A command surface on which every call raises `SlackApiError`. -/
def allFailures : WebFailures :=
  { reactions_add_fails := fun _ _ _ => true, chat_postMessage_fails := fun _ _ => true }

/-- C8: a record carrying a reaction and a thread issues exactly one
`reactions_add` with the resolved channel ID, the reaction and the
thread, and no `chat_postMessage` — even when body text is also
present. -/
theorem c8_reaction_dispatch (env : SlackEnv) (wf : WebFailures) (st st' : Caches)
    (chvar : Option String) (m : SlackMessage) (cid : String)
    (hre : m.reaction ≠ "") (hth : m.thread ≠ "")
    (hres : resolve_destination env st chvar m = .ok (st', some cid)) :
    (process_out_msg env wf st chvar m).calls =
      [.reactions_add cid m.reaction m.thread] := by
  by_cases hfail : wf.reactions_add_fails cid m.reaction m.thread <;>
    simp [process_out_msg, hres, hre, hth, hfail]

/-- Witness for `c8_reaction_dispatch`: the spec's end-to-end scenario
(`reaction="eyes"`, `thread="1.2"`, `channel_id="EFGH"`, body text also
present) yields exactly one add-reaction call. -/
theorem c8_reaction_dispatch_witness :
    (process_out_msg emptyEnv noFailures {} none
        { channel_id := "EFGH", msg := "also some text", reaction := "eyes",
          thread := "1.2" }).calls = [.reactions_add "EFGH" "eyes" "1.2"] :=
  c8_reaction_dispatch emptyEnv noFailures {} {} none _ "EFGH" (by decide) (by decide) rfl

/-- C9 counterexample: a record with no channel information and neither
reaction-with-thread nor body text, processed first (the `channel_id`
local unbound), IS treated as malformed (logged) and no `NameError`
escapes — contradicting the claim's unconditional "does not treat the
record as malformed … a NameError escapes". -/
theorem c9_counterexample :
    (process_out_msg emptyEnv noFailures {} none {}).logs = [.malformedMessage] ∧
    (process_out_msg emptyEnv noFailures {} none {}).error = none := by
  exact ⟨rfl, rfl⟩

/-- C9 (amended): a record with neither a non-empty `channel_id` nor a
non-empty `channel` undergoes no channel resolution (caches untouched,
the `channel_id` local kept as is); when it carries a reaction+thread or
body text, the command reuses the channel ID left by an earlier record,
and with the local still unbound a `NameError` escapes the loop; a
record with neither content is only logged as malformed, with no
escape. -/
theorem c9_channel_fallthrough (env : SlackEnv) (wf : WebFailures) (st : Caches)
    (chvar : Option String) (m : SlackMessage)
    (hcid : m.channel_id = "") (hch : m.channel = "") :
    resolve_destination env st chvar m = .ok (st, chvar) ∧
    (∀ cid, chvar = some cid → m.reaction ≠ "" → m.thread ≠ "" →
      (process_out_msg env wf st chvar m).calls =
        [.reactions_add cid m.reaction m.thread]) ∧
    (∀ cid, chvar = some cid → ¬(m.reaction ≠ "" ∧ m.thread ≠ "") → m.msg ≠ "" →
      (process_out_msg env wf st chvar m).calls = [.chat_postMessage cid m.msg]) ∧
    (chvar = none → ((m.reaction ≠ "" ∧ m.thread ≠ "") ∨ m.msg ≠ "") →
      (process_out_msg env wf st chvar m).error = some .nameError ∧
      (process_out_msg env wf st chvar m).calls = []) ∧
    (¬(m.reaction ≠ "" ∧ m.thread ≠ "") → m.msg = "" →
      (process_out_msg env wf st chvar m).logs = [.malformedMessage] ∧
      (process_out_msg env wf st chvar m).error = none) := by
  have hres : resolve_destination env st chvar m = .ok (st, chvar) := by
    simp [resolve_destination, hcid, hch]
  refine ⟨hres, ?_, ?_, ?_, ?_⟩
  · intro cid hv hre hth
    subst hv
    by_cases hfail : wf.reactions_add_fails cid m.reaction m.thread <;>
      simp [process_out_msg, hres, hre, hth, hfail]
  · intro cid hv hnr hm
    subst hv
    simp [process_out_msg, hres, hnr, hm]
  · intro hv hcontent
    subst hv
    rcases hcontent with ⟨hre, hth⟩ | hm
    · constructor <;> simp [process_out_msg, hres, hre, hth]
    · by_cases hrt : m.reaction ≠ "" ∧ m.thread ≠ ""
      · constructor <;> simp [process_out_msg, hres, hrt]
      · constructor <;> simp [process_out_msg, hres, hrt, hm]
  · intro hnr hm
    constructor <;> simp [process_out_msg, hres, hnr, hm]

/-- Witness for `c9_channel_fallthrough`: a text record with no channel
fields, dispatched while the local holds `"C0"` from an earlier record,
posts to `"C0"`. -/
theorem c9_channel_fallthrough_witness :
    resolve_destination emptyEnv {} (some "C0") { msg := "hi" } = .ok ({}, some "C0") ∧
    (∀ cid, (some "C0" : Option String) = some cid →
      ({ msg := "hi" } : SlackMessage).reaction ≠ "" →
      ({ msg := "hi" } : SlackMessage).thread ≠ "" →
      (process_out_msg emptyEnv noFailures {} (some "C0") { msg := "hi" }).calls =
        [.reactions_add cid ({ msg := "hi" } : SlackMessage).reaction
          ({ msg := "hi" } : SlackMessage).thread]) ∧
    (∀ cid, (some "C0" : Option String) = some cid →
      ¬(({ msg := "hi" } : SlackMessage).reaction ≠ "" ∧
          ({ msg := "hi" } : SlackMessage).thread ≠ "") →
      ({ msg := "hi" } : SlackMessage).msg ≠ "" →
      (process_out_msg emptyEnv noFailures {} (some "C0") { msg := "hi" }).calls =
        [.chat_postMessage cid ({ msg := "hi" } : SlackMessage).msg]) ∧
    ((some "C0" : Option String) = none →
      ((({ msg := "hi" } : SlackMessage).reaction ≠ "" ∧
          ({ msg := "hi" } : SlackMessage).thread ≠ "") ∨
        ({ msg := "hi" } : SlackMessage).msg ≠ "") →
      (process_out_msg emptyEnv noFailures {} (some "C0") { msg := "hi" }).error =
        some .nameError ∧
      (process_out_msg emptyEnv noFailures {} (some "C0") { msg := "hi" }).calls = []) ∧
    (¬(({ msg := "hi" } : SlackMessage).reaction ≠ "" ∧
          ({ msg := "hi" } : SlackMessage).thread ≠ "") →
      ({ msg := "hi" } : SlackMessage).msg = "" →
      (process_out_msg emptyEnv noFailures {} (some "C0") { msg := "hi" }).logs =
        [.malformedMessage] ∧
      (process_out_msg emptyEnv noFailures {} (some "C0") { msg := "hi" }).error = none) :=
  c9_channel_fallthrough emptyEnv noFailures {} (some "C0") { msg := "hi" } rfl rfl

/-- C2 counterexample: a platform failure of the add-reaction command is
NOT caught: the drain stops with `SlackApiError` and the next record (a
well-formed text send) is never dispatched — contradicting "any
platform-level failure of the send-text or add-reaction command … is
logged and the loop continues". -/
theorem c2_counterexample :
    (drain_outqueue emptyEnv allFailures
        [{ channel_id := "C1", reaction := "eyes", thread := "1.1" },
         { channel_id := "C1", msg := "hello" }] {} none).error = some .slackApiError ∧
    (drain_outqueue emptyEnv allFailures
        [{ channel_id := "C1", reaction := "eyes", thread := "1.1" },
         { channel_id := "C1", msg := "hello" }] {} none).calls =
      [.reactions_add "C1" "eyes" "1.1"] := by
  exact ⟨rfl, rfl⟩

/-- C2 (amended): only a `SlackApiError` from the send-text command is
caught — logged, and the drain continues with the remaining records.  A
platform failure of the add-reaction command, and any error raised while
resolving the destination channel name, escape and abort the drain, with
no further record processed. -/
theorem c2_error_propagation (env : SlackEnv) (wf : WebFailures) (st st' : Caches)
    (chvar : Option String) (m : SlackMessage) (rest : List SlackMessage) (cid : String)
    (hres : resolve_destination env st chvar m = .ok (st', some cid)) :
    (¬(m.reaction ≠ "" ∧ m.thread ≠ "") → m.msg ≠ "" →
      wf.chat_postMessage_fails cid m.msg = true →
      (process_out_msg env wf st chvar m).error = none ∧
      (process_out_msg env wf st chvar m).logs = [.sendFailure] ∧
      (drain_outqueue env wf (m :: rest) st chvar).calls =
        .chat_postMessage cid m.msg ::
          (drain_outqueue env wf rest st' (some cid)).calls) ∧
    (m.reaction ≠ "" → m.thread ≠ "" →
      wf.reactions_add_fails cid m.reaction m.thread = true →
      (drain_outqueue env wf (m :: rest) st chvar).error = some .slackApiError ∧
      (drain_outqueue env wf (m :: rest) st chvar).calls =
        [.reactions_add cid m.reaction m.thread]) ∧
    (∀ (m0 : SlackMessage) (e : LookupError) (ste : Caches),
      resolve_destination env st chvar m0 = .error (e, ste) →
      (drain_outqueue env wf (m0 :: rest) st chvar).error = some (.lookupError e) ∧
      (drain_outqueue env wf (m0 :: rest) st chvar).calls = []) := by
  refine ⟨?_, ?_, ?_⟩
  · intro hnr hm hfail
    have hstep : process_out_msg env wf st chvar m =
        { calls := [.chat_postMessage cid m.msg], logs := [.sendFailure],
          caches := st', channel_id := some cid } := by
      simp [process_out_msg, hres, hnr, hm, hfail]
    refine ⟨by simp [hstep], by simp [hstep], ?_⟩
    rw [drain_outqueue, hstep]
    simp
  · intro hre hth hfail
    have hstep : process_out_msg env wf st chvar m =
        { calls := [.reactions_add cid m.reaction m.thread], caches := st',
          channel_id := some cid, error := some .slackApiError } := by
      simp [process_out_msg, hres, hre, hth, hfail]
    constructor <;> (rw [drain_outqueue, hstep]; try simp)
  · intro m0 e ste hres0
    have hstep : process_out_msg env wf st chvar m0 =
        { caches := ste, channel_id := chvar, error := some (.lookupError e) } := by
      simp [process_out_msg, hres0]
    constructor <;> (rw [drain_outqueue, hstep]; try simp)

/-- Witness for `c2_error_propagation`: a failing text send to `"CC"` is
logged and the drain moves on; the other clauses are vacuous here. -/
theorem c2_error_propagation_witness :
    (¬(({ channel_id := "CC", msg := "hey" } : SlackMessage).reaction ≠ "" ∧
          ({ channel_id := "CC", msg := "hey" } : SlackMessage).thread ≠ "") →
      ({ channel_id := "CC", msg := "hey" } : SlackMessage).msg ≠ "" →
      allFailures.chat_postMessage_fails "CC"
          ({ channel_id := "CC", msg := "hey" } : SlackMessage).msg = true →
      (process_out_msg emptyEnv allFailures {} none
          { channel_id := "CC", msg := "hey" }).error = none ∧
      (process_out_msg emptyEnv allFailures {} none
          { channel_id := "CC", msg := "hey" }).logs = [.sendFailure] ∧
      (drain_outqueue emptyEnv allFailures
          [{ channel_id := "CC", msg := "hey" }] {} none).calls =
        .chat_postMessage "CC" ({ channel_id := "CC", msg := "hey" } : SlackMessage).msg ::
          (drain_outqueue emptyEnv allFailures [] {} (some "CC")).calls) ∧
    (({ channel_id := "CC", msg := "hey" } : SlackMessage).reaction ≠ "" →
      ({ channel_id := "CC", msg := "hey" } : SlackMessage).thread ≠ "" →
      allFailures.reactions_add_fails "CC"
          ({ channel_id := "CC", msg := "hey" } : SlackMessage).reaction
          ({ channel_id := "CC", msg := "hey" } : SlackMessage).thread = true →
      (drain_outqueue emptyEnv allFailures
          [{ channel_id := "CC", msg := "hey" }] {} none).error = some .slackApiError ∧
      (drain_outqueue emptyEnv allFailures
          [{ channel_id := "CC", msg := "hey" }] {} none).calls =
        [.reactions_add "CC" ({ channel_id := "CC", msg := "hey" } : SlackMessage).reaction
          ({ channel_id := "CC", msg := "hey" } : SlackMessage).thread]) ∧
    (∀ (m0 : SlackMessage) (e : LookupError) (ste : Caches),
      resolve_destination emptyEnv {} none m0 = .error (e, ste) →
      (drain_outqueue emptyEnv allFailures (m0 :: []) {} none).error =
        some (.lookupError e) ∧
      (drain_outqueue emptyEnv allFailures (m0 :: []) {} none).calls = []) :=
  c2_error_propagation emptyEnv allFailures {} {} none
    { channel_id := "CC", msg := "hey" } [] "CC" rfl

theorem filter_nonCall_map_call (cs : List WebCall) :
    (cs.map Action.call).filter (fun a => !a.isCall) = [] := by
  induction cs with
  | nil => rfl
  | cons c cs ih => simp [Action.isCall, ih]

theorem filter_nonCall_map_push (ss : List Nat) (b : List SlackMessage) :
    ((ss.map fun s => Action.push_tick s b).filter fun a => !a.isCall) =
      ss.map fun s => Action.push_tick s b := by
  induction ss with
  | nil => rfl
  | cons s ss ih => simp [Action.isCall, ih]

/-- C6: in one iteration of the worker loop (provided no exception kills
the drain), the emitted action trace is a block of web-client calls
followed by a block of `push_tick`s — every pending outbound record is
dispatched before any inbound delivery — and the `push_tick`s are
exactly one per registered subscriber, each carrying the whole inbound
queue as one batch in arrival order (none when the queue is empty). -/
theorem c6_outbound_before_inbound (env : SlackEnv) (wf : WebFailures)
    (outq inq : List SlackMessage) (subscribers : List Nat) (st : Caches)
    (chvar : Option String)
    (herr : (run_iteration env wf outq inq subscribers st chvar).2.error = none) :
    (∃ k,
      (∀ a ∈ (run_iteration env wf outq inq subscribers st chvar).1.take k,
        a.isCall = true) ∧
      (∀ a ∈ (run_iteration env wf outq inq subscribers st chvar).1.drop k,
        a.isCall = false)) ∧
    ((run_iteration env wf outq inq subscribers st chvar).1.filter fun a => !a.isCall) =
      (if inq.isEmpty then []
       else subscribers.map fun s => Action.push_tick s inq) := by
  cases hE : (drain_outqueue env wf outq st chvar).error with
  | some e =>
    exfalso
    rw [run_iteration] at herr
    simp only [hE] at herr
    exact Option.noConfusion herr
  | none =>
    have htr : (run_iteration env wf outq inq subscribers st chvar).1 =
        (drain_outqueue env wf outq st chvar).calls.map Action.call ++
          (if inq.isEmpty then []
           else subscribers.map fun s => Action.push_tick s inq) := by
      rw [run_iteration, hE]
      by_cases hq : inq.isEmpty <;> simp [hq]
    rw [htr]
    constructor
    · refine ⟨((drain_outqueue env wf outq st chvar).calls.map Action.call).length, ?_, ?_⟩
      · intro a ha
        rw [List.take_left] at ha
        rcases List.mem_map.mp ha with ⟨c, _, rfl⟩
        rfl
      · intro a ha
        rw [List.drop_left] at ha
        by_cases hq : inq.isEmpty
        · rw [if_pos hq] at ha
          simp at ha
        · rw [if_neg hq] at ha
          rcases List.mem_map.mp ha with ⟨s, _, rfl⟩
          rfl
    · rw [List.filter_append, filter_nonCall_map_call]
      by_cases hq : inq.isEmpty
      · simp [hq]
      · simp only [if_neg hq, List.nil_append]
        exact filter_nonCall_map_push subscribers inq

/-- Witness for `c6_outbound_before_inbound`: one outbound text record
and a two-message inbound batch delivered to two subscribers. -/
theorem c6_outbound_before_inbound_witness :
    (∃ k,
      (∀ a ∈ (run_iteration emptyEnv noFailures [{ channel_id := "C2", msg := "out" }]
          [{ msg := "in1" }, { msg := "in2" }] [0, 1] {} none).1.take k,
        a.isCall = true) ∧
      (∀ a ∈ (run_iteration emptyEnv noFailures [{ channel_id := "C2", msg := "out" }]
          [{ msg := "in1" }, { msg := "in2" }] [0, 1] {} none).1.drop k,
        a.isCall = false)) ∧
    ((run_iteration emptyEnv noFailures [{ channel_id := "C2", msg := "out" }]
        [{ msg := "in1" }, { msg := "in2" }] [0, 1] {} none).1.filter fun a => !a.isCall) =
      (if ([{ msg := "in1" }, { msg := "in2" }] : List SlackMessage).isEmpty then []
       else [0, 1].map fun s =>
        Action.push_tick s [{ msg := "in1" }, { msg := "in2" }]) :=
  c6_outbound_before_inbound emptyEnv noFailures _ _ [0, 1] {} none rfl

end SlackAdapter
